import Mathlib

/-!
Verification development for the WUR API server (`wur_api/api_server.py`) of the
Hugin imaging system.  The Python source is shallowly embedded: pure helpers
become Lean functions, the mutable `APIState` / `ZMQClient` objects become
explicit state records threaded through the operations, and the asynchronous
environment (ZMQ replies, raised exceptions, task cancellation) is passed in as
explicit event/oracle values.  Machine integers are modelled as `Nat`/`Int`;
byte strings as `List Nat` (byte values) and decoded text as `List Nat`
(Unicode code points).  Wall-clock timestamps recorded purely for logging
(`timestamp`, `completed_at`, `error_at`, heartbeat `Timestamp`) are not
modelled; they are never read back by the code.
-/

namespace WurApi

/-! ## ImageError bit flags (api_server.py lines 55-65)

`ImageError` is an `IntFlag` with eight members declared with `auto()`, so the
values are the successive powers of two; `SUCCESS = 0`. -/

def SUCCESS : Nat := 0

def MAIN_CORRUPT : Nat := 1

def THREE_D0_CORRUPT : Nat := 2

def THREE_D1_CORRUPT : Nat := 4

def THREE_D2_CORRUPT : Nat := 8

def THERMAL_CORRUPT : Nat := 16

def RESET_TIMEOUT : Nat := 32

def REBOOT_TIMEOUT : Nat := 64

def FATAL_UNKNOWN : Nat := 128

/-! ## UTF-8 decoding (model of `bytes.decode('utf-8')`)

CPython's strict UTF-8 codec: rejects continuation-byte starts, overlong
encodings (C0/C1 starts, E0 A0 lower bound, F0 90 lower bound), surrogates
(ED A0..BF) and code points above U+10FFFF (F4 90.., F5..FF).  On any invalid
byte the whole decode raises `UnicodeDecodeError`, modelled as `none`. -/

/-- Byte-at-a-time strict UTF-8 decoder state machine.  Arguments after the
byte list: `need` = number of continuation bytes still expected for the code
point accumulated in `acc`; `lo`/`hi` = the admissible half-open range for the
next continuation byte (E0/ED/F0/F4 lead bytes restrict their first
continuation byte to exclude overlong forms, surrogates and values above
U+10FFFF; later continuation bytes are always 80..BF). -/
def utf8DecodeAux : List Nat → Nat → Nat → Nat → Nat → Option (List Nat)
  | [], need, _, _, _ => if need = 0 then some [] else none
  | b :: bs, need, acc, lo, hi =>
    if need = 0 then
      if b < 0x80 then (utf8DecodeAux bs 0 0 0 0).map (fun cs => b :: cs)
      else if b < 0xC2 then none
      else if b < 0xE0 then utf8DecodeAux bs 1 (b - 0xC0) 0x80 0xC0
      else if b = 0xE0 then utf8DecodeAux bs 2 0 0xA0 0xC0
      else if b = 0xED then utf8DecodeAux bs 2 0xD 0x80 0xA0
      else if b < 0xF0 then utf8DecodeAux bs 2 (b - 0xE0) 0x80 0xC0
      else if b = 0xF0 then utf8DecodeAux bs 3 0 0x90 0xC0
      else if b < 0xF4 then utf8DecodeAux bs 3 (b - 0xF0) 0x80 0xC0
      else if b = 0xF4 then utf8DecodeAux bs 3 4 0x80 0x90
      else none
    else
      if lo ≤ b ∧ b < hi then
        if need = 1 then
          (utf8DecodeAux bs 0 0 0 0).map (fun cs => (acc * 0x40 + (b - 0x80)) :: cs)
        else utf8DecodeAux bs (need - 1) (acc * 0x40 + (b - 0x80)) 0x80 0xC0
      else none

def utf8Decode (bs : List Nat) : Option (List Nat) := utf8DecodeAux bs 0 0 0 0

/-! ## Python `str.strip()` / `str.split()` (no separator argument)

Python treats the following code points as whitespace for `str.strip` and
`str.split`: the ASCII whitespace run 09-0D, the C0 separators 1C-1F, space,
NEL 85, NBSP A0, and the Unicode space separators. -/

def isPySpace (c : Nat) : Bool :=
  (0x09 ≤ c && c ≤ 0x0D) || (0x1C ≤ c && c ≤ 0x1F) || c == 0x20 || c == 0x85 ||
  c == 0xA0 || c == 0x1680 || (0x2000 ≤ c && c ≤ 0x200A) || c == 0x2028 ||
  c == 0x2029 || c == 0x202F || c == 0x205F || c == 0x3000

def pyStrip (s : List Nat) : List Nat :=
  ((s.dropWhile (fun c => isPySpace c)).reverse.dropWhile (fun c => isPySpace c)).reverse

def pySplitAux : List Nat → List Nat → List (List Nat)
  | [], acc => if acc = [] then [] else [acc.reverse]
  | c :: cs, acc =>
    if isPySpace c then
      if acc = [] then pySplitAux cs [] else acc.reverse :: pySplitAux cs []
    else pySplitAux cs (c :: acc)

def pySplit (s : List Nat) : List (List Nat) := pySplitAux s []

/-! ## Python `int(str)` on a whitespace-free token

`int()` accepts an optional sign followed by a non-empty digit string in which
single underscores may separate digits (no leading/trailing/doubled
underscore).  Tokens produced by `str.split()` contain no whitespace, so the
stripping `int()` would do is vacuous here.  Digits are modelled as the ASCII
digits 0-9 (non-ASCII decimal digits are out of scope of this development). -/

def digitVal (c : Nat) : Option Nat :=
  if 0x30 ≤ c ∧ c ≤ 0x39 then some (c - 0x30) else none

/-- Digit run with optional single underscores between digits.  The `Bool`
argument records whether the previously consumed character was an underscore
(which must then be followed by a digit, and may not end the token). -/
def parseDigitsAux : List Nat → Nat → Bool → Option Nat
  | [], acc, pend => if pend then none else some acc
  | c :: cs, acc, pend =>
    if c == 0x5F then
      if pend then none else parseDigitsAux cs acc true
    else
      match digitVal c with
      | some v => parseDigitsAux cs (acc * 10 + v) false
      | none => none

def parseUnsigned : List Nat → Option Nat
  | [] => none
  | c :: cs =>
    match digitVal c with
    | some v => parseDigitsAux cs v false
    | none => none

def pyInt : List Nat → Option Int
  | [] => none
  | c :: cs =>
    if c == 0x2B then (parseUnsigned cs).map Int.ofNat
    else if c == 0x2D then (parseUnsigned cs).map (fun n => -(Int.ofNat n))
    else (parseUnsigned (c :: cs)).map Int.ofNat

/-- Render a decoded token (list of code points) as a Lean `String`. -/
def codesToString (cs : List Nat) : String := String.mk (cs.map Char.ofNat)

/-- Byte string of an ASCII Lean string literal (each char < 0x80 encodes as
itself in UTF-8). -/
def asciiBytes (s : String) : List Nat := s.data.map Char.toNat

/-! ## `ImageError.parse_response` (api_server.py lines 67-102)

```python
try:
    parts = response.decode('utf-8').strip().split()
    error_code = int(parts[0])
    error = cls(error_code)
    plant_id = parts[1] if len(parts) > 1 else None
    image_dir = parts[2] if len(parts) > 2 else None
    return error, plant_id, image_dir
except (ValueError, IndexError, UnicodeDecodeError):
    return cls.FATAL_UNKNOWN, None, None
```

`cls(error_code)` on the `IntFlag` keeps any non-negative bitmask value;
a negative value raises `ValueError`, caught by the same handler.  The
returned flag is modelled by its integer value. -/

def parse_response (response : List Nat) : Nat × Option String × Option String :=
  match utf8Decode response with
  | none => (FATAL_UNKNOWN, none, none)
  | some cs =>
    match pySplit (pyStrip cs) with
    | [] => (FATAL_UNKNOWN, none, none)
    | t0 :: rest =>
      match pyInt t0 with
      | none => (FATAL_UNKNOWN, none, none)
      | some n =>
        if n < 0 then (FATAL_UNKNOWN, none, none)
        else (n.toNat, (rest.head?).map codesToString, (rest.get? 1).map codesToString)

/-! ## API models (api_server.py lines 105-154)

`Message.Type` is rendered as the field `msgType` (`Type` is reserved in
Lean); it ranges over the five strings used by the code. -/

structure Message where
  MessageText : String
  msgType : String
deriving DecidableEq, Repr

structure Response where
  Values : List String
  Message : Message
deriving DecidableEq, Repr

/-- `ImagingMetaData` (lines 140-146).  The numeric fields `Height` and
`Angle` are floats that none of the verified operations inspect; they are
carried opaquely as rationals to keep records comparable. -/
structure ImagingMetaData where
  PlantId : String
  ExperimentId : String
  TreatmentId : String
  Height : Rat
  Angle : Rat
deriving DecidableEq, Repr

structure CallBackRegistrationData where
  ClientName : String
  Uri : String
  SendPathInfo : Bool
  SendData : Bool
  HeartBeatInterval : Int
deriving DecidableEq, Repr

/-! ## Trigger records and the trigger registry (`state.triggers`)

A record's `error` entry is either absent/`None` (the two are treated
identically by every reader: `notify_image_acquisition` checks
`"error" in trigger_data and trigger_data["error"] is not None`), the numeric
code `error.value` set on a decoded backend error, or a message string set in
the exception handler / the `finally` safety net. -/

inductive ErrVal
  | none
  | code (n : Nat)
  | msg (s : String)
deriving DecidableEq, Repr

structure TriggerRecord where
  status : String
  plant_id : String
  settings : Option String := Option.none
  metadata : Option ImagingMetaData := Option.none
  image_id : Option String := Option.none
  image_dir : Option String := Option.none
  error : ErrVal := ErrVal.none
deriving DecidableEq, Repr

/-- `state.triggers` is a dict; modelled as an association list with the usual
dict operations (lookup first match; insert replaces in place). -/
abbrev Registry := List (String × TriggerRecord)

def lookupT : Registry → String → Option TriggerRecord
  | [], _ => Option.none
  | (k, v) :: rest, id => if k = id then some v else lookupT rest id

def insertT : Registry → String → TriggerRecord → Registry
  | [], id, v => [(id, v)]
  | (k, w) :: rest, id, v =>
    if k = id then (k, v) :: rest else (k, w) :: insertT rest id v

/-- `state.triggers[id].update({...})` — mutate the record under `id` in
place (no-op on an absent key; the call sites below only reach it when the
key is present). -/
def updateT : Registry → String → (TriggerRecord → TriggerRecord) → Registry
  | [], _, _ => []
  | (k, v) :: rest, id, f =>
    if k = id then (k, f v) :: rest else (k, v) :: updateT rest id f

/-! ## `process_trigger` (api_server.py lines 914-991)

The coroutine's environment is abstracted into a `RunEvent` describing how the
awaited operations behave on this run:

* `reply bs` — `send` and `receive` both succeed, the raw reply is `bs`, and
  the notification fan-out completes without raising;
* `replyNotifyExc bs m` — as above, but `notify_image_acquisition` raises an
  ordinary exception with text `m` (caught by `except Exception`, which
  overwrites the record with `status="error"`, `error=str(e)`);
* `replyNotifyCancel bs` — the reply is processed but the task is cancelled
  during the notification await (`except CancelledError` re-raises);
* `sendExc m` / `recvExc m` — `send`/`receive` raise an ordinary exception
  with text `m` (e.g. the ZMQ `ENOTCONN` failure after reconnect exhaustion);
* `cancelSend` / `cancelRecv` — the task is cancelled while awaiting
  `send`/`receive`, before any record update.

The nested best-effort notification inside the `except Exception` handler
performs no record mutation and is not modelled.  How the run terminates is
reported as an `ExitKind` (normal return, propagating `CancelledError`, or
propagating exception). -/

inductive RunEvent
  | reply (bs : List Nat)
  | replyNotifyExc (bs : List Nat) (m : String)
  | replyNotifyCancel (bs : List Nat)
  | sendExc (m : String)
  | recvExc (m : String)
  | cancelSend
  | cancelRecv
deriving DecidableEq, Repr

inductive ExitKind
  | normal
  | cancelledRaised
deriving DecidableEq, Repr

/-- Python truthiness of an optional string (`None` and `""` are falsy). -/
def truthyS : Option String → Bool
  | Option.none => false
  | some s => s ≠ ""

/-- Lines 923-962: parse the reply, fall back to the stored plant id, then
mark the record `finished` (with synthesized image id) or `error` (with the
numeric code).  Returns the updated registry and the plant id value in scope
afterwards (it is passed on to the notification fan-out). -/
def applyReply (reg : Registry) (trigger_id : String) (bs : List Nat) :
    Registry × Option String :=
  let parsed := parse_response bs
  let err := parsed.1
  let plant0 := parsed.2.1
  let image_dir := parsed.2.2
  let plant_id :=
    if ¬ truthyS plant0 ∧ (lookupT reg trigger_id).isSome then
      match lookupT reg trigger_id with
      | some r => some r.plant_id
      | Option.none => plant0
    else plant0
  let newReg :=
    if err = SUCCESS then
      let image_id :=
        if truthyS plant_id ∧ truthyS image_dir then
          (plant_id.getD "") ++ "_" ++ (image_dir.getD "")
        else "img_" ++ trigger_id
      updateT reg trigger_id (fun r =>
        { r with status := "finished", image_id := some image_id,
                 image_dir := image_dir, error := ErrVal.none })
    else
      updateT reg trigger_id (fun r =>
        { r with status := "error", error := ErrVal.code err })
  (newReg, plant_id)

/-- Lines 972-977 (`except Exception` handler): overwrite the record with an
error message, only if the trigger id is present. -/
def markErrorMsg (reg : Registry) (trigger_id : String) (m : String) : Registry :=
  if (lookupT reg trigger_id).isSome then
    updateT reg trigger_id (fun r => { r with status := "error", error := ErrVal.msg m })
  else reg

/-- The `try`/`except` body of `process_trigger` (everything before
`finally`).  In the `reply`-family events the record update itself would raise
`KeyError` were the id absent; that `KeyError` lands in `except Exception`,
whose guard `if trigger_id in state.triggers` is then false, leaving the
registry unchanged — which is exactly what `applyReply`'s no-op `updateT`
yields, so one equation covers both. -/
def processTriggerBody (reg : Registry) (trigger_id : String) (ev : RunEvent) :
    Registry × ExitKind :=
  match ev with
  | RunEvent.reply bs => ((applyReply reg trigger_id bs).1, ExitKind.normal)
  | RunEvent.replyNotifyExc bs m =>
    (markErrorMsg (applyReply reg trigger_id bs).1 trigger_id m, ExitKind.normal)
  | RunEvent.replyNotifyCancel bs =>
    ((applyReply reg trigger_id bs).1, ExitKind.cancelledRaised)
  | RunEvent.sendExc m => (markErrorMsg reg trigger_id m, ExitKind.normal)
  | RunEvent.recvExc m => (markErrorMsg reg trigger_id m, ExitKind.normal)
  | RunEvent.cancelSend => (reg, ExitKind.cancelledRaised)
  | RunEvent.cancelRecv => (reg, ExitKind.cancelledRaised)

/-- Lines 986-991 (`finally`): if the record still reads `busy`, force
`status="error"`, `error="Unexpected state"`. -/
def finallyStep (reg : Registry) (trigger_id : String) : Registry :=
  match lookupT reg trigger_id with
  | some r =>
    if r.status = "busy" then
      updateT reg trigger_id (fun r =>
        { r with status := "error", error := ErrVal.msg "Unexpected state" })
    else reg
  | Option.none => reg

def process_trigger (reg : Registry) (trigger_id : String) (ev : RunEvent) :
    Registry × ExitKind :=
  let body := processTriggerBody reg trigger_id ev
  (finallyStep body.1 trigger_id, body.2)

/-! ## API state and facade endpoints -/

/-- Model of an `asyncio.Task` entry in `state.heartbeat_tasks`: the loop
parameters it was created with and its `done()` flag. -/
structure TaskState where
  intervalMs : Int
  uri : String
  done : Bool
deriving DecidableEq, Repr

/-- Generic dict lookup over an association list. -/
def alookup {α : Type} : List (String × α) → String → Option α
  | [], _ => Option.none
  | (k, v) :: rest, id => if k = id then some v else alookup rest id

/-- Generic dict assignment (replace in place, else append). -/
def ainsert {α : Type} : List (String × α) → String → α → List (String × α)
  | [], id, v => [(id, v)]
  | (k, w) :: rest, id, v =>
    if k = id then (k, v) :: rest else (k, w) :: ainsert rest id v

/-- `APIState` (lines 370-381), restricted to the fields the verified
operations read or write.  The ZMQ client and notification HTTP session are
modelled separately. -/
structure ApiState where
  current_metadata : Option ImagingMetaData
  current_settings : Option String
  triggers : Registry
  settings_files : List String
  registered_clients : List (String × CallBackRegistrationData)
  heartbeat_tasks : List (String × TaskState)
deriving DecidableEq, Repr

/-- A single-quote character (U+0027), used in several message strings. -/
def sq : String := String.mk [Char.ofNat 39]

/-- `set_settings` endpoint (lines 607-630). -/
def set_settings (s : ApiState) (settings_name : String) : ApiState × Response :=
  if settings_name ∉ s.settings_files then
    (s, ⟨[], ⟨"Settings file " ++ sq ++ settings_name ++ sq ++ " not found", "Error"⟩⟩)
  else
    ({ s with current_settings := some settings_name }, ⟨[], ⟨"", "Success"⟩⟩)

/-- `trigger` endpoint (lines 656-712).  `freshId` stands for the
`str(uuid.uuid4())` drawn on this call.  The ZMQ request document prepared by
`prepare_zmq_message` (settings-file I/O, out of scope) and the scheduling of
the `process_trigger` background task are not part of the returned state; the
processor itself is modelled above. -/
def trigger (s : ApiState) (plant_id : String) (freshId : String) : ApiState × Response :=
  match s.current_metadata with
  | Option.none =>
    (s, ⟨[], ⟨"No metadata provided before trigger", "Error"⟩⟩)
  | some md =>
    if plant_id ≠ md.PlantId then
      (s, ⟨[], ⟨"Plant ID mismatch: " ++ plant_id ++ " != " ++ md.PlantId, "Warning"⟩⟩)
    else
      ({ s with
          triggers := insertT s.triggers freshId
            { status := "busy", plant_id := plant_id,
              settings := s.current_settings, metadata := some md } },
       ⟨[freshId], ⟨"", "Success"⟩⟩)

/-! ## `unregister` (lines 834-863)

The handler's effects on the task/registry structures are recorded as an
explicit effect trace so that the presence and order of `Task.cancel()`,
awaiting a task, and `del state.registered_clients[...]` can be stated.  The
source cancels the non-finished heartbeat task and deletes the subscriber
entry; it contains no `await` between them (or anywhere else), and it leaves
the (cancelled, not yet finished) task object in `state.heartbeat_tasks`. -/

inductive UnregEffect
  | cancelTask (n : String)
  | awaitTask (n : String)
  | removeClient (n : String)
deriving DecidableEq, Repr

def unregister (s : ApiState) (client_name : String) :
    ApiState × Response × List UnregEffect :=
  if (alookup s.registered_clients client_name).isSome then
    let cancelEffs : List UnregEffect :=
      match alookup s.heartbeat_tasks client_name with
      | some t => if ¬ t.done then [UnregEffect.cancelTask client_name] else []
      | Option.none => []
    ({ s with registered_clients :=
        s.registered_clients.filter (fun p => p.1 != client_name) },
     ⟨[], ⟨"", "Success"⟩⟩,
     cancelEffs ++ [UnregEffect.removeClient client_name])
  else
    (s, ⟨[], ⟨"Client " ++ sq ++ client_name ++ sq ++ " not registered", "Error"⟩⟩, [])

/-- The client names the notification fan-out loop (lines 511-526) would
iterate over in a given state. -/
def notifyRecipients (s : ApiState) : List String := s.registered_clients.map Prod.fst

/-! ## Notification fan-out payload (`notify_image_acquisition`, lines 468-531) -/

def HUGIN_S3_BUCKET : String := "hugin-images"

def HUGIN_S3_BASE_PATH : String := "images"

/-- Python `str()` of an optional string (`None` renders as `"None"` inside
an f-string). -/
def pyStrOpt : Option String → String
  | some s => s
  | Option.none => "None"

def errValStr : ErrVal → String
  | ErrVal.none => "None"
  | ErrVal.code n => toString n
  | ErrVal.msg s => s

structure ErrorBlock where
  code : ErrVal
  message : String
deriving DecidableEq, Repr

structure AcqPayload where
  typeField : String
  triggerId : String
  plantId : Option String
  statusField : String
  imagePath : Option String
  imageId : Option String
  errorField : Option ErrorBlock
deriving DecidableEq, Repr

/-- The base notification payload built at lines 488-508 (before the
per-client copy that may strip `ImagePath`).  `Timestamp` is not modelled. -/
def buildAcqPayload (trigger_id : String) (plant_id : Option String)
    (image_dir : Option String) (r : TriggerRecord) : AcqPayload :=
  let finished := r.status = "finished"
  let withImage := truthyS image_dir && decide finished
  { typeField := "ImageAcquisition"
    triggerId := trigger_id
    plantId := plant_id
    statusField := if finished then "success" else "error"
    imagePath :=
      if withImage then
        some (HUGIN_S3_BUCKET ++ "/" ++ HUGIN_S3_BASE_PATH ++ "/" ++ pyStrOpt image_dir)
      else Option.none
    imageId :=
      if withImage then some (pyStrOpt plant_id ++ "_" ++ pyStrOpt image_dir)
      else Option.none
    errorField :=
      if r.error = ErrVal.none then Option.none
      else some ⟨r.error, "Error code: " ++ errValStr r.error⟩ }

/-- `notify_image_acquisition` up to the point where the base payload exists:
returns `none` on the early exits (no registered clients / unknown trigger). -/
def notify_image_acquisition (s : ApiState) (trigger_id : String)
    (plant_id : Option String) (image_dir : Option String) : Option AcqPayload :=
  if s.registered_clients = [] then Option.none
  else
    match lookupT s.triggers trigger_id with
    | Option.none => Option.none
    | some r => some (buildAcqPayload trigger_id plant_id image_dir r)

/-! ## Heartbeats (`start_heartbeat_task` lines 419-438, `_heartbeat_loop`
lines 440-466, `send_heartbeat` lines 351-367) -/

structure HeartbeatPayload where
  typeField : String
  statusField : String
deriving DecidableEq, Repr

/-- The heartbeat body posted by `send_heartbeat` (`Timestamp` not
modelled). -/
def heartbeatPayload : HeartbeatPayload := ⟨"Heartbeat", "alive"⟩

/-- `interval_sec = max(interval_ms / 1000.0, 1.0)`, expressed in
milliseconds (exact arithmetic; double rounding of `/ 1000.0` is ignored). -/
def intervalSleepMs (interval_ms : Int) : Nat := max interval_ms.toNat 1000

structure HBEvent where
  timeMs : Nat
  payload : HeartbeatPayload
deriving DecidableEq, Repr

/-- The loop posts a heartbeat at the top of each iteration and then sleeps
`interval_sec`; after `n` uncancelled iterations the posts happened at times
`k * interval_sec` for `k < n` (time measured from loop start, send latency
abstracted away). -/
def heartbeatTrace (interval_ms : Int) (n : Nat) : List HBEvent :=
  (List.range n).map (fun k => ⟨k * intervalSleepMs interval_ms, heartbeatPayload⟩)

structure StartHBResult where
  tasks : List (String × TaskState)
  cancelledPrior : Bool
  started : Option TaskState
deriving DecidableEq, Repr

/-- `start_heartbeat_task`: cancel a prior non-done task for the name, then —
only when the interval is positive — create and register a fresh loop task. -/
def start_heartbeat_task (tasks : List (String × TaskState)) (client_name : String)
    (cd : CallBackRegistrationData) : StartHBResult :=
  let cancelledPrior :=
    match alookup tasks client_name with
    | some t => !t.done
    | Option.none => false
  if cd.HeartBeatInterval ≤ 0 then ⟨tasks, cancelledPrior, Option.none⟩
  else
    let t : TaskState := ⟨cd.HeartBeatInterval, cd.Uri, false⟩
    ⟨ainsert tasks client_name t, cancelledPrior, some t⟩

/-- The heartbeat events a registration produces once its loop (if any) has
run `n` iterations: none at all when no task was started. -/
def registrationTrace (started : Option TaskState) (n : Nat) : List HBEvent :=
  match started with
  | some t => heartbeatTrace t.intervalMs n
  | Option.none => []

/-- How a run of `_heartbeat_loop` ends: the task is cancelled, or an
unexpected non-cancellation exception escapes the loop body. -/
inductive LoopExit
  | cancel
  | exc (m : String)
deriving DecidableEq, Repr

inductive LoopCtl
  | continueLoop
  | breakLoop
deriving DecidableEq, Repr

/-- One iteration of the `while True` body (lines 453-460): send the
heartbeat; on failure only a warning is logged; then sleep.  Neither branch
breaks the loop. -/
def heartbeatIter (sendOk : Bool) : LoopCtl :=
  if sendOk then LoopCtl.continueLoop else LoopCtl.continueLoop

/-- A run of `_heartbeat_loop`: the iterations consume the per-iteration
`send_heartbeat` results until the external event `ext` interrupts the loop.
Returns (number of completed iterations, whether `CancelledError` propagates
to the caller): the `except CancelledError` handler re-raises, the
`except Exception` handler swallows. -/
def heartbeatLoopRun : List Bool → LoopExit → Nat × Bool
  | [], ext =>
    (0, match ext with | LoopExit.cancel => true | LoopExit.exc _ => false)
  | r :: rs, ext =>
    match heartbeatIter r with
    | LoopCtl.continueLoop =>
      let rest := heartbeatLoopRun rs ext
      (rest.1 + 1, rest.2)
    | LoopCtl.breakLoop => (1, false)

/-! ## ZMQ client (`ZMQClient`, lines 157-288)

Whether each `self.socket.connect(...)` call succeeds is supplied by the
oracle arguments (`connectOk`); `now` is the current `time.time()` in whole
seconds. -/

structure ZMQClient where
  connected : Bool
  reconnect_attempts : Nat
  max_reconnect_attempts : Nat
  last_activity : Nat
deriving DecidableEq, Repr

/-- `_connect` (lines 183-201): on success set `connected`, reset the attempt
counter and refresh `last_activity`; on `ZMQError` clear `connected`. -/
def zmqConnect (c : ZMQClient) (connectOk : Bool) (now : Nat) : Bool × ZMQClient :=
  if connectOk then
    (true, { c with connected := true, reconnect_attempts := 0, last_activity := now })
  else (false, { c with connected := false })

/-- `ensure_connection` (lines 203-215): reconnect from scratch when never
connected or idle for more than 300 seconds. -/
def ensure_connection (c : ZMQClient) (connectOk : Bool) (now : Nat) : Bool × ZMQClient :=
  if ¬ c.connected ∨ 300 < now - c.last_activity then zmqConnect c connectOk now
  else (true, c)

structure ReconnectResult where
  ok : Bool
  client : ZMQClient
  waited : Option Nat
  attempted : Bool
deriving DecidableEq, Repr

/-- `reconnect` (lines 217-243): refuse once the attempt budget is consumed;
otherwise bump the counter, recreate the socket and try `_connect`; on
failure sleep `min(2 ** attempts, 30)` seconds before returning `False`.
`waited` records that sleep, `attempted` whether a `_connect` was made. -/
def reconnect (c : ZMQClient) (connectOk : Bool) (now : Nat) : ReconnectResult :=
  if c.max_reconnect_attempts ≤ c.reconnect_attempts then
    ⟨false, c, Option.none, false⟩
  else
    let c1 := { c with reconnect_attempts := c.reconnect_attempts + 1 }
    let conn := zmqConnect c1 connectOk now
    if conn.1 then ⟨true, conn.2, Option.none, true⟩
    else ⟨false, conn.2, some (min (2 ^ c1.reconnect_attempts) 30), true⟩

inductive SendResult
  | sent
  | notConnRaised
  | sendErrRaised
deriving DecidableEq, Repr

structure SendOutcome where
  client : ZMQClient
  result : SendResult
  waits : List Nat
deriving DecidableEq, Repr

/-- `send` (lines 245-264).  `okEnsure` answers `ensure_connection`'s
`_connect` (when one happens), `okR1`/`okR2` the first and second `reconnect`;
`sendOk` whether `socket.send_string` itself succeeds.  When the connection
cannot be validated and `reconnect` fails, the raised
`ZMQError(ENOTCONN, "Not connected to ZMQ server")` is caught by the
function's own `except zmq.ZMQError` handler, which runs one more `reconnect`
and re-raises (`SendResult.notConnRaised`). -/
def zmqSend (c : ZMQClient) (now : Nat) (okEnsure okR1 okR2 : Bool)
    (sendOk : Bool) : SendOutcome :=
  let e := ensure_connection c okEnsure now
  if e.1 then
    if sendOk then ⟨{ e.2 with last_activity := now }, SendResult.sent, []⟩
    else
      let r := reconnect e.2 okR1 now
      ⟨r.client, SendResult.sendErrRaised, r.waited.toList⟩
  else
    let r := reconnect e.2 okR1 now
    if r.ok then
      if sendOk then ⟨{ r.client with last_activity := now }, SendResult.sent, []⟩
      else
        let r2 := reconnect r.client okR2 now
        ⟨r2.client, SendResult.sendErrRaised, r2.waited.toList⟩
    else
      let r2 := reconnect r.client okR2 now
      ⟨r2.client, SendResult.notConnRaised, r.waited.toList ++ r2.waited.toList⟩

/-- A chain of `reconnect` calls in which every `_connect` fails: the client
threaded through, plus the total number of `_connect` attempts made. -/
def chainFailedReconnects (c : ZMQClient) (now : Nat) : Nat → ZMQClient × Nat
  | 0 => (c, 0)
  | n + 1 =>
    let r := reconnect c false now
    let rest := chainFailedReconnects r.client now n
    (rest.1, (if r.attempted then 1 else 0) + rest.2)

/-! ## Invariant relating record status and error detail (claim C8) -/

/-- A record marked `finished` carries no error value. -/
def statusErrInv (r : TriggerRecord) : Prop :=
  r.status = "finished" → r.error = ErrVal.none

/-- Every record in the registry satisfies `statusErrInv`. -/
def invAll (reg : Registry) : Prop :=
  ∀ id r, lookupT reg id = some r → statusErrInv r

/-! ## Concrete states used by the witness theorems -/

def emptyApiState : ApiState :=
  { current_metadata := Option.none, current_settings := Option.none, triggers := [],
    settings_files := [], registered_clients := [], heartbeat_tasks := [] }

def wSettingsState : ApiState := { emptyApiState with settings_files := ["hugin_settings"] }

def wMeta : ImagingMetaData :=
  { PlantId := "plantY", ExperimentId := "exp1", TreatmentId := "trt1",
    Height := 10, Angle := 90 }

def wMetaState : ApiState := { emptyApiState with current_metadata := some wMeta }

def wBusyRec : TriggerRecord := { status := "busy", plant_id := "plantY" }

def wErrRec : TriggerRecord :=
  { status := "error", plant_id := "plantY", error := ErrVal.code 14 }

def c7Client : CallBackRegistrationData :=
  { ClientName := "clientA", Uri := "http://localhost:9000/cb", SendPathInfo := true,
    SendData := false, HeartBeatInterval := 1000 }

def c7Task : TaskState :=
  { intervalMs := 1000, uri := "http://localhost:9000/cb", done := false }

def c7State : ApiState :=
  { emptyApiState with
      registered_clients := [("clientA", c7Client)],
      heartbeat_tasks := [("clientA", c7Task)] }

def wClient0 : CallBackRegistrationData :=
  { ClientName := "clientB", Uri := "http://localhost:9000/cb", SendPathInfo := true,
    SendData := false, HeartBeatInterval := 0 }

def wClient500 : CallBackRegistrationData :=
  { ClientName := "clientB", Uri := "http://localhost:9000/cb", SendPathInfo := true,
    SendData := false, HeartBeatInterval := 500 }

def wZmq : ZMQClient :=
  { connected := false, reconnect_attempts := 0, max_reconnect_attempts := 5,
    last_activity := 0 }

/-! # Theorems -/

/-! ## Association-list dictionary lemmas -/

theorem lookupT_updateT (reg : Registry) (id id2 : String)
    (f : TriggerRecord → TriggerRecord) :
    lookupT (updateT reg id f) id2 =
      if id = id2 then (lookupT reg id2).map f else lookupT reg id2 := by
  induction reg with
  | nil => simp only [updateT, lookupT]; split <;> rfl
  | cons hd tl ih =>
    obtain ⟨k, v⟩ := hd
    by_cases hk : k = id
    · subst hk
      by_cases h2 : k = id2
      · subst h2; simp [updateT, lookupT]
      · simp [updateT, lookupT, h2]
    · by_cases h2 : k = id2
      · subst h2
        have hne : id ≠ k := fun h => hk h.symm
        simp [updateT, lookupT, hk, hne]
      · simp [updateT, lookupT, hk, h2, ih]

theorem lookupT_insertT (reg : Registry) (id id2 : String) (v : TriggerRecord) :
    lookupT (insertT reg id v) id2 =
      if id = id2 then some v else lookupT reg id2 := by
  induction reg with
  | nil => simp [insertT, lookupT]
  | cons hd tl ih =>
    obtain ⟨k, w⟩ := hd
    by_cases hk : k = id
    · subst hk
      by_cases h2 : k = id2
      · subst h2; simp [insertT, lookupT]
      · simp [insertT, lookupT, h2]
    · by_cases h2 : k = id2
      · subst h2
        have hne : id ≠ k := fun h => hk h.symm
        simp [insertT, lookupT, hk, hne]
      · simp [insertT, lookupT, hk, h2, ih]

/-- Claim C10: selecting an unknown settings name returns an Error response
and leaves the whole state — in particular the currently selected settings —
unchanged; selecting a listed name sets `current_settings` to it and returns
a Success response. -/
theorem C10_set_settings (s : ApiState) (name : String) :
    (name ∉ s.settings_files →
      (set_settings s name).1 = s ∧ (set_settings s name).2.Message.msgType = "Error")
    ∧ (name ∈ s.settings_files →
      (set_settings s name).1 = { s with current_settings := some name } ∧
        (set_settings s name).2 = ⟨[], ⟨"", "Success"⟩⟩) := by
  refine ⟨fun h => ?_, fun h => ?_⟩ <;> simp [set_settings, h]

/-- Witness for C10 at a concrete state: an unknown name is rejected without
touching the state, a listed name is selected. -/
theorem C10_set_settings_witness :
    ("missing" ∉ wSettingsState.settings_files ∧
      (set_settings wSettingsState "missing").1 = wSettingsState ∧
      (set_settings wSettingsState "missing").2.Message.msgType = "Error") ∧
    ("hugin_settings" ∈ wSettingsState.settings_files ∧
      (set_settings wSettingsState "hugin_settings").1 =
        { wSettingsState with current_settings := some "hugin_settings" } ∧
      (set_settings wSettingsState "hugin_settings").2 = ⟨[], ⟨"", "Success"⟩⟩) :=
  ⟨⟨by decide, (C10_set_settings wSettingsState "missing").1 (by decide)⟩,
   ⟨by decide, (C10_set_settings wSettingsState "hugin_settings").2 (by decide)⟩⟩

/-- Claim C3: trigger submission with no stored metadata returns an
Error-type response and creates no record; with a mismatched plant id it
returns a Warning-type response and creates no record; otherwise it creates a
`busy` record under the fresh trigger id (leaving other records untouched)
and returns the id in a Success response. -/
theorem C3_trigger (s : ApiState) (plant_id freshId : String) :
    (s.current_metadata = Option.none →
      (trigger s plant_id freshId).1 = s ∧
      (trigger s plant_id freshId).2 =
        ⟨[], ⟨"No metadata provided before trigger", "Error"⟩⟩)
    ∧ (∀ md, s.current_metadata = some md → plant_id ≠ md.PlantId →
      (trigger s plant_id freshId).1 = s ∧
      (trigger s plant_id freshId).2.Message.msgType = "Warning")
    ∧ (∀ md, s.current_metadata = some md → plant_id = md.PlantId →
      lookupT (trigger s plant_id freshId).1.triggers freshId =
        some { status := "busy", plant_id := plant_id,
               settings := s.current_settings, metadata := some md } ∧
      (∀ id2, id2 ≠ freshId →
        lookupT (trigger s plant_id freshId).1.triggers id2 = lookupT s.triggers id2) ∧
      (trigger s plant_id freshId).2 = ⟨[freshId], ⟨"", "Success"⟩⟩) := by
  refine ⟨fun h => ?_, fun md hmd hne => ?_, fun md hmd heq => ?_⟩
  · simp [trigger, h]
  · simp [trigger, hmd, hne]
  · refine ⟨?_, fun id2 hid2 => ?_, ?_⟩
    · simp [trigger, hmd, heq, lookupT_insertT]
    · have hne2 : freshId ≠ id2 := fun h => hid2 h.symm
      simp [trigger, hmd, heq, lookupT_insertT, hne2]
    · simp [trigger, hmd, heq]

/-- Witness for C3 at concrete states: no metadata, a mismatching plant id,
and a matching plant id with a fresh trigger id. -/
theorem C3_trigger_witness :
    ((trigger emptyApiState "plantY" "t1").1 = emptyApiState ∧
      (trigger emptyApiState "plantY" "t1").2 =
        ⟨[], ⟨"No metadata provided before trigger", "Error"⟩⟩) ∧
    ((trigger wMetaState "plantX" "t1").1 = wMetaState ∧
      (trigger wMetaState "plantX" "t1").2.Message.msgType = "Warning") ∧
    (lookupT (trigger wMetaState "plantY" "t1").1.triggers "t1" =
      some { status := "busy", plant_id := "plantY",
             settings := Option.none, metadata := some wMeta } ∧
      (∀ id2, id2 ≠ "t1" →
        lookupT (trigger wMetaState "plantY" "t1").1.triggers id2 =
          lookupT wMetaState.triggers id2) ∧
      (trigger wMetaState "plantY" "t1").2 = ⟨["t1"], ⟨"", "Success"⟩⟩) :=
  ⟨(C3_trigger emptyApiState "plantY" "t1").1 rfl,
   (C3_trigger wMetaState "plantX" "t1").2.1 wMeta rfl (by decide),
   (C3_trigger wMetaState "plantY" "t1").2.2 wMeta rfl rfl⟩

/-! ## Lemmas about the trigger processor -/

theorem lookupT_updateT_self (reg : Registry) (id : String)
    (f : TriggerRecord → TriggerRecord) :
    lookupT (updateT reg id f) id = (lookupT reg id).map f := by
  rw [lookupT_updateT, if_pos rfl]

theorem lookupT_markErrorMsg (reg : Registry) (id m : String) (r0 : TriggerRecord)
    (h0 : lookupT reg id = some r0) :
    lookupT (markErrorMsg reg id m) id =
      some { r0 with status := "error", error := ErrVal.msg m } := by
  unfold markErrorMsg
  rw [if_pos (by rw [h0]; rfl), lookupT_updateT_self, h0]
  rfl

theorem applyReply_status (reg : Registry) (id : String) (bs : List Nat)
    (r0 : TriggerRecord) (h0 : lookupT reg id = some r0) :
    ∃ rb, lookupT (applyReply reg id bs).1 id = some rb ∧
      (rb.status = "finished" ∨ rb.status = "error") := by
  unfold applyReply
  dsimp only
  split
  · exact ⟨_, by rw [lookupT_updateT_self, h0]; rfl, Or.inl rfl⟩
  · exact ⟨_, by rw [lookupT_updateT_self, h0]; rfl, Or.inr rfl⟩

theorem processTriggerBody_status (reg : Registry) (id : String) (ev : RunEvent)
    (r0 : TriggerRecord) (h0 : lookupT reg id = some r0) :
    ∃ rb, lookupT (processTriggerBody reg id ev).1 id = some rb ∧
      (rb.status = r0.status ∨ rb.status = "finished" ∨ rb.status = "error") := by
  cases ev with
  | reply bs =>
    obtain ⟨rb, hrb, hc⟩ := applyReply_status reg id bs r0 h0
    exact ⟨rb, hrb, Or.inr hc⟩
  | replyNotifyExc bs m =>
    obtain ⟨rb, hrb, _⟩ := applyReply_status reg id bs r0 h0
    exact ⟨_, lookupT_markErrorMsg _ id m rb hrb, Or.inr (Or.inr rfl)⟩
  | replyNotifyCancel bs =>
    obtain ⟨rb, hrb, hc⟩ := applyReply_status reg id bs r0 h0
    exact ⟨rb, hrb, Or.inr hc⟩
  | sendExc m => exact ⟨_, lookupT_markErrorMsg reg id m r0 h0, Or.inr (Or.inr rfl)⟩
  | recvExc m => exact ⟨_, lookupT_markErrorMsg reg id m r0 h0, Or.inr (Or.inr rfl)⟩
  | cancelSend => exact ⟨r0, h0, Or.inl rfl⟩
  | cancelRecv => exact ⟨r0, h0, Or.inl rfl⟩

theorem finallyStep_spec (reg : Registry) (id : String) (rb : TriggerRecord)
    (hb : lookupT reg id = some rb) :
    (rb.status = "busy" →
      lookupT (finallyStep reg id) id =
        some { rb with status := "error", error := ErrVal.msg "Unexpected state" }) ∧
    (rb.status ≠ "busy" → lookupT (finallyStep reg id) id = some rb) := by
  constructor
  · intro h
    unfold finallyStep
    rw [hb]
    dsimp only
    rw [if_pos h, lookupT_updateT_self, hb]
    rfl
  · intro h
    unfold finallyStep
    rw [hb]
    dsimp only
    rw [if_neg h, hb]

/-- Claim C1: a run of `process_trigger` on a registered trigger id always
ends with the record in a terminal state (`finished` or `error`), whatever
the environment did (normal reply, exception, cancellation); and whenever
the `try`/`except` body left the record `busy`, the `finally` safety net is
what forced it to `error` with detail `"Unexpected state"`. -/
theorem C1_process_trigger_terminal (reg : Registry) (trigger_id : String)
    (ev : RunEvent) (r0 : TriggerRecord)
    (h0 : lookupT reg trigger_id = some r0)
    (hs : r0.status = "busy" ∨ r0.status = "finished" ∨ r0.status = "error") :
    ∃ r1, lookupT (process_trigger reg trigger_id ev).1 trigger_id = some r1 ∧
      (r1.status = "finished" ∨ r1.status = "error") ∧
      (∀ rb, lookupT (processTriggerBody reg trigger_id ev).1 trigger_id = some rb →
        rb.status = "busy" →
        r1.status = "error" ∧ r1.error = ErrVal.msg "Unexpected state") := by
  obtain ⟨rb, hrb, hcase⟩ := processTriggerBody_status reg trigger_id ev r0 h0
  have hfin := finallyStep_spec (processTriggerBody reg trigger_id ev).1 trigger_id rb hrb
  by_cases hbusy : rb.status = "busy"
  · refine ⟨_, hfin.1 hbusy, Or.inr rfl, fun rb2 hrb2 _ => ⟨rfl, rfl⟩⟩
  · refine ⟨rb, hfin.2 hbusy, ?_, fun rb2 hrb2 hbusy2 => ?_⟩
    · rcases hcase with h | h | h
      · rcases hs with h0s | h0s | h0s
        · exact absurd (h.trans h0s) hbusy
        · exact Or.inl (h.trans h0s)
        · exact Or.inr (h.trans h0s)
      · exact Or.inl h
      · exact Or.inr h
    · have : rb2 = rb := by rw [hrb] at hrb2; exact (Option.some.inj hrb2).symm
      exact absurd (this ▸ hbusy2) hbusy

/-- Witness for C1: a concrete busy record cancelled before any update is
forced to `error` / `"Unexpected state"` by the safety net. -/
theorem C1_process_trigger_terminal_witness :
    ∃ r1, lookupT (process_trigger [("t1", wBusyRec)] "t1" RunEvent.cancelSend).1 "t1" =
        some r1 ∧
      (r1.status = "finished" ∨ r1.status = "error") ∧
      (∀ rb, lookupT (processTriggerBody [("t1", wBusyRec)] "t1" RunEvent.cancelSend).1
          "t1" = some rb →
        rb.status = "busy" →
        r1.status = "error" ∧ r1.error = ErrVal.msg "Unexpected state") :=
  C1_process_trigger_terminal [("t1", wBusyRec)] "t1" RunEvent.cancelSend wBusyRec
    (by rfl) (Or.inl rfl)

/-- Claim C5: on a decoded reply, the processor falls back to the record's
stored plant id when the reply carries none; a success reply marks the record
`finished` with image id `plantId_imageDir` (when both are non-empty, else
`img_<triggerId>`) and stores the image directory; a non-zero error code
marks the record `error` carrying that numeric code. -/
theorem applyReply_fst_spec (reg : Registry) (trigger_id : String) (bs : List Nat)
    (err : Nat) (p0 d : Option String) (r0 : TriggerRecord)
    (hp : parse_response bs = (err, p0, d))
    (h0 : lookupT reg trigger_id = some r0) :
    (applyReply reg trigger_id bs).1 =
      (if err = SUCCESS then
        updateT reg trigger_id (fun r =>
          { r with
              status := "finished",
              image_id := some
                (if truthyS (if truthyS p0 then p0 else some r0.plant_id) ∧ truthyS d then
                  ((if truthyS p0 then p0 else some r0.plant_id).getD "") ++ "_" ++ (d.getD "")
                else "img_" ++ trigger_id),
              image_dir := d, error := ErrVal.none })
      else
        updateT reg trigger_id (fun r =>
          { r with status := "error", error := ErrVal.code err })) := by
  unfold applyReply
  rw [hp]
  dsimp only
  by_cases htp : truthyS p0
  · simp [htp]
  · simp [htp, h0]

theorem applyReply_snd_spec (reg : Registry) (trigger_id : String) (bs : List Nat)
    (err : Nat) (p0 d : Option String) (r0 : TriggerRecord)
    (hp : parse_response bs = (err, p0, d))
    (h0 : lookupT reg trigger_id = some r0) :
    (applyReply reg trigger_id bs).2 =
      (if truthyS p0 then p0 else some r0.plant_id) := by
  unfold applyReply
  rw [hp]
  dsimp only
  by_cases htp : truthyS p0
  · simp [htp]
  · simp [htp, h0]

/-- Claim C5: on a decoded reply, the processor falls back to the record's
stored plant id when the reply carries none; a success reply marks the record
`finished` with image id `plantId_imageDir` (when both are non-empty, else
`img_<triggerId>`) and stores the image directory; a non-zero error code
marks the record `error` carrying that numeric code. -/
theorem C5_reply_semantics (reg : Registry) (trigger_id : String) (bs : List Nat)
    (err : Nat) (p0 d : Option String) (r0 : TriggerRecord)
    (hp : parse_response bs = (err, p0, d))
    (h0 : lookupT reg trigger_id = some r0) :
    ((applyReply reg trigger_id bs).2 =
      (if truthyS p0 then p0 else some r0.plant_id)) ∧
    (p0 = Option.none → (applyReply reg trigger_id bs).2 = some r0.plant_id) ∧
    (err = SUCCESS →
      lookupT (applyReply reg trigger_id bs).1 trigger_id = some
        { r0 with
            status := "finished",
            image_id := some
              (if truthyS (applyReply reg trigger_id bs).2 ∧ truthyS d then
                ((applyReply reg trigger_id bs).2.getD "") ++ "_" ++ (d.getD "")
              else "img_" ++ trigger_id),
            image_dir := d, error := ErrVal.none }) ∧
    (err ≠ SUCCESS →
      lookupT (applyReply reg trigger_id bs).1 trigger_id = some
        { r0 with status := "error", error := ErrVal.code err }) := by
  have hplant := applyReply_snd_spec reg trigger_id bs err p0 d r0 hp h0
  have hfst := applyReply_fst_spec reg trigger_id bs err p0 d r0 hp h0
  refine ⟨hplant, fun hnone => ?_, fun hsucc => ?_, fun hfail => ?_⟩
  · rw [hplant, hnone]
    simp [truthyS]
  · rw [hplant, hfst, if_pos hsucc, lookupT_updateT_self, h0]
    rfl
  · rw [hfst, if_neg hfail, lookupT_updateT_self, h0]
    rfl

/-- Witness for C5 at concrete inputs: a success reply with both tokens, and
an error reply `"14"` with no plant token (falling back to the stored plant
id `"plantY"`). -/
theorem C5_reply_semantics_witness :
    (lookupT (applyReply [("t1", wBusyRec)] "t1"
        (asciiBytes "0 plantA ImageSet_x")).1 "t1" = some
      { wBusyRec with
          status := "finished", image_id := some "plantA_ImageSet_x",
          image_dir := some "ImageSet_x", error := ErrVal.none }) ∧
    ((applyReply [("t1", wBusyRec)] "t1" (asciiBytes "14")).2 = some "plantY") ∧
    (lookupT (applyReply [("t1", wBusyRec)] "t1" (asciiBytes "14")).1 "t1" = some
      { wBusyRec with status := "error", error := ErrVal.code 14 }) :=
  ⟨(C5_reply_semantics [("t1", wBusyRec)] "t1" (asciiBytes "0 plantA ImageSet_x")
      0 (some "plantA") (some "ImageSet_x") wBusyRec (by decide) (by rfl)).2.2.1 rfl,
   (C5_reply_semantics [("t1", wBusyRec)] "t1" (asciiBytes "14")
      14 Option.none Option.none wBusyRec (by decide) (by rfl)).2.1 rfl,
   (C5_reply_semantics [("t1", wBusyRec)] "t1" (asciiBytes "14")
      14 Option.none Option.none wBusyRec (by decide) (by rfl)).2.2.2 (by decide)⟩

/-- Claim C2: `parse_response` parses token 0 as the integer error bitmask,
token 1 (if present) as the plant id and token 2 (if present) as the image
directory; an input whose first token is missing, non-integer, or whose bytes
are not UTF-8 decodable degrades to `(FATAL_UNKNOWN, none, none)` instead of
raising; and the three concrete spec examples evaluate as stated. -/
theorem C2_parse_response :
    (∀ bs cs t0 rest n, utf8Decode bs = some cs →
      pySplit (pyStrip cs) = t0 :: rest → pyInt t0 = some n → 0 ≤ n →
      parse_response bs =
        (n.toNat, (rest.head?).map codesToString, (rest.get? 1).map codesToString)) ∧
    (∀ bs, utf8Decode bs = none → parse_response bs = (FATAL_UNKNOWN, none, none)) ∧
    (∀ bs cs, utf8Decode bs = some cs → pySplit (pyStrip cs) = [] →
      parse_response bs = (FATAL_UNKNOWN, none, none)) ∧
    (∀ bs cs t0 rest, utf8Decode bs = some cs → pySplit (pyStrip cs) = t0 :: rest →
      pyInt t0 = none → parse_response bs = (FATAL_UNKNOWN, none, none)) ∧
    parse_response (asciiBytes "0 plantA ImageSet_x") =
      (SUCCESS, some "plantA", some "ImageSet_x") ∧
    parse_response (asciiBytes "14 ") =
      (THREE_D0_CORRUPT ||| THREE_D1_CORRUPT ||| THREE_D2_CORRUPT, none, none) ∧
    parse_response (asciiBytes "garbage") = (FATAL_UNKNOWN, none, none) := by
  refine ⟨?_, ?_, ?_, ?_, by decide, by decide, by decide⟩
  · intro bs cs t0 rest n h1 h2 h3 h4
    unfold parse_response
    rw [h1]
    dsimp only
    rw [h2]
    dsimp only
    rw [h3]
    dsimp only
    rw [if_neg (by omega)]
  · intro bs h
    unfold parse_response
    rw [h]
  · intro bs cs h1 h2
    unfold parse_response
    rw [h1]
    dsimp only
    rw [h2]
  · intro bs cs t0 rest h1 h2 h3
    unfold parse_response
    rw [h1]
    dsimp only
    rw [h2]
    dsimp only
    rw [h3]

/-- Witness for C2 at concrete inputs: a well-formed reply, an undecodable
byte, whitespace-only input, and a non-integer first token. -/
theorem C2_parse_response_witness :
    parse_response (asciiBytes "7 p d") = (7, some "p", some "d") ∧
    parse_response [0xFF] = (FATAL_UNKNOWN, none, none) ∧
    parse_response (asciiBytes " ") = (FATAL_UNKNOWN, none, none) ∧
    parse_response (asciiBytes "x1") = (FATAL_UNKNOWN, none, none) :=
  ⟨C2_parse_response.1 (asciiBytes "7 p d") (asciiBytes "7 p d") [0x37] [[0x70], [0x64]] 7
      (by decide) (by decide) (by decide) (by decide),
   C2_parse_response.2.1 [0xFF] (by decide),
   C2_parse_response.2.2.1 (asciiBytes " ") [0x20] (by decide) (by decide),
   C2_parse_response.2.2.2.1 (asciiBytes "x1") [0x78, 0x31] [0x78, 0x31] []
      (by decide) (by decide) (by decide)⟩

/-! ## The finished-implies-no-error invariant (claim C8) -/

theorem errNeFin : ("error" : String) ≠ "finished" := by decide

theorem updateT_invAll (reg : Registry) (id : String)
    (f : TriggerRecord → TriggerRecord)
    (hf : ∀ r, statusErrInv (f r)) (hreg : invAll reg) :
    invAll (updateT reg id f) := by
  intro id2 r2 h
  rw [lookupT_updateT] at h
  by_cases hid : id = id2
  · rw [if_pos hid] at h
    cases hx : lookupT reg id2 with
    | none => rw [hx] at h; cases h
    | some r =>
      rw [hx] at h
      have hr : f r = r2 := by simpa using h
      rw [← hr]
      exact hf r
  · rw [if_neg hid] at h
    exact hreg id2 r2 h

theorem applyReply_invAll (reg : Registry) (id : String) (bs : List Nat)
    (hreg : invAll reg) : invAll (applyReply reg id bs).1 := by
  unfold applyReply
  dsimp only
  split
  · exact updateT_invAll _ _ _ (fun r _ => rfl) hreg
  · exact updateT_invAll _ _ _ (fun r h => absurd h errNeFin) hreg

theorem markErrorMsg_invAll (reg : Registry) (id m : String) (hreg : invAll reg) :
    invAll (markErrorMsg reg id m) := by
  unfold markErrorMsg
  split
  · exact updateT_invAll _ _ _ (fun r h => absurd h errNeFin) hreg
  · exact hreg

theorem finallyStep_invAll (reg : Registry) (id : String) (hreg : invAll reg) :
    invAll (finallyStep reg id) := by
  unfold finallyStep
  split
  · split
    · exact updateT_invAll _ _ _ (fun r h => absurd h errNeFin) hreg
    · exact hreg
  · exact hreg

theorem processTriggerBody_invAll (reg : Registry) (id : String) (ev : RunEvent)
    (hreg : invAll reg) : invAll (processTriggerBody reg id ev).1 := by
  cases ev with
  | reply bs => exact applyReply_invAll reg id bs hreg
  | replyNotifyExc bs m =>
    exact markErrorMsg_invAll _ id m (applyReply_invAll reg id bs hreg)
  | replyNotifyCancel bs => exact applyReply_invAll reg id bs hreg
  | sendExc m => exact markErrorMsg_invAll reg id m hreg
  | recvExc m => exact markErrorMsg_invAll reg id m hreg
  | cancelSend => exact hreg
  | cancelRecv => exact hreg

/-- Claim C8: every record update performed by `process_trigger` preserves
the invariant that a `finished` record carries `error = None`; the
notification payload reports `Status = "success"` exactly for `finished`
records; and (given the invariant) a payload carrying an `Error` block can
only describe a non-finished record. -/
theorem C8_finished_no_error :
    (∀ reg trigger_id ev, invAll reg → invAll (process_trigger reg trigger_id ev).1) ∧
    (∀ trigger_id plant_id image_dir r,
      (buildAcqPayload trigger_id plant_id image_dir r).statusField = "success" ↔
        r.status = "finished") ∧
    (∀ trigger_id plant_id image_dir r, statusErrInv r →
      (buildAcqPayload trigger_id plant_id image_dir r).errorField ≠ Option.none →
      r.status ≠ "finished") := by
  refine ⟨fun reg tid ev h =>
      finallyStep_invAll _ tid (processTriggerBody_invAll reg tid ev h),
    fun tid p d r => ?_, fun tid p d r hinv hne hf => ?_⟩
  · by_cases hf : r.status = "finished"
    · simp [buildAcqPayload, hf]
    · simp only [buildAcqPayload, if_neg hf]
      constructor
      · intro h
        exact absurd h (by decide)
      · intro h
        exact absurd h hf
  · exact hne (by simp [buildAcqPayload, hinv hf])

/-- Witness for C8: the invariant propagates through a concrete cancelled
run, and a concrete error record with an `Error` block is not finished. -/
theorem C8_finished_no_error_witness :
    invAll (process_trigger [("t1", wBusyRec)] "t1" RunEvent.cancelSend).1 ∧
    wErrRec.status ≠ "finished" :=
  ⟨C8_finished_no_error.1 [("t1", wBusyRec)] "t1" RunEvent.cancelSend
      (by
        intro id r h
        simp only [lookupT] at h
        split at h
        · cases h
          intro hf
          exact absurd hf (by decide)
        · cases h),
   C8_finished_no_error.2.2 "t1" (some "plantY") Option.none wErrRec
      (fun hf => absurd hf (by decide)) (by decide)⟩

/-! ## Heartbeats (claims C6 and C9) -/

/-- Claim C6: starting a heartbeat cancels any prior non-finished loop for
the client name; a non-positive interval starts no loop and yields no
heartbeat events for the registration; a positive interval starts a loop
whose posts carry the `{Type: Heartbeat, Status: alive}` payload every
`max(intervalMs/1000, 1)` seconds; with `HeartBeatInterval = 500` any
non-empty run contains a heartbeat within 2 seconds. -/
theorem C6_heartbeat (tasks : List (String × TaskState)) (client_name : String)
    (cd : CallBackRegistrationData) :
    (∀ t, alookup tasks client_name = some t → t.done = false →
      (start_heartbeat_task tasks client_name cd).cancelledPrior = true) ∧
    (cd.HeartBeatInterval ≤ 0 →
      (start_heartbeat_task tasks client_name cd).started = Option.none ∧
      ∀ n, registrationTrace (start_heartbeat_task tasks client_name cd).started n = []) ∧
    (0 < cd.HeartBeatInterval →
      (start_heartbeat_task tasks client_name cd).started =
        some { intervalMs := cd.HeartBeatInterval, uri := cd.Uri, done := false } ∧
      ∀ n, registrationTrace (start_heartbeat_task tasks client_name cd).started n =
        (List.range n).map
          (fun k => { timeMs := k * intervalSleepMs cd.HeartBeatInterval,
                      payload := heartbeatPayload })) ∧
    (cd.HeartBeatInterval = 500 → ∀ n, 0 < n →
      ∃ e ∈ registrationTrace (start_heartbeat_task tasks client_name cd).started n,
        e.timeMs ≤ 2000 ∧ e.payload = heartbeatPayload) := by
  refine ⟨fun t ht hdone => ?_, fun h => ?_, fun h => ?_, fun h500 n hn => ?_⟩
  · unfold start_heartbeat_task
    rw [ht]
    dsimp only
    split <;> simp [hdone]
  · unfold start_heartbeat_task
    rw [if_pos h]
    exact ⟨rfl, fun n => rfl⟩
  · unfold start_heartbeat_task
    rw [if_neg (by omega)]
    exact ⟨rfl, fun n => rfl⟩
  · unfold start_heartbeat_task
    rw [if_neg (by omega)]
    dsimp only [registrationTrace, heartbeatTrace]
    refine ⟨{ timeMs := 0 * intervalSleepMs cd.HeartBeatInterval,
              payload := heartbeatPayload },
      List.mem_map.mpr ⟨0, List.mem_range.mpr hn, rfl⟩, by simp, rfl⟩

/-- Witness for C6 at concrete inputs: a live prior task is cancelled, a zero
interval yields no loop and no events, a 500 ms interval yields a loop whose
first run already posts within 2 seconds. -/
theorem C6_heartbeat_witness :
    ((start_heartbeat_task [("clientB", c7Task)] "clientB" wClient500).cancelledPrior
        = true) ∧
    ((start_heartbeat_task [] "clientB" wClient0).started = Option.none ∧
      ∀ n, registrationTrace (start_heartbeat_task [] "clientB" wClient0).started n
        = []) ∧
    ((start_heartbeat_task [] "clientB" wClient500).started =
      some { intervalMs := 500, uri := "http://localhost:9000/cb", done := false }) ∧
    (∃ e ∈ registrationTrace (start_heartbeat_task [] "clientB" wClient500).started 1,
      e.timeMs ≤ 2000 ∧ e.payload = heartbeatPayload) :=
  ⟨(C6_heartbeat [("clientB", c7Task)] "clientB" wClient500).1 c7Task (by decide)
      (by decide),
   (C6_heartbeat [] "clientB" wClient0).2.1 (by decide),
   ((C6_heartbeat [] "clientB" wClient500).2.2.1 (by decide)).1,
   (C6_heartbeat [] "clientB" wClient500).2.2.2 rfl 1 (by decide)⟩

/-- Claim C9: a failed heartbeat delivery never terminates the loop — every
send result, success or failure, completes its iteration and the loop
continues — and the run exits only through the external event, re-raising
`CancelledError` on cancellation and swallowing other exceptions. -/
theorem C9_heartbeat_loop (results : List Bool) (ext : LoopExit) :
    (heartbeatLoopRun results ext).1 = results.length ∧
    ((heartbeatLoopRun results ext).2 = true ↔ ext = LoopExit.cancel) := by
  induction results with
  | nil =>
    refine ⟨rfl, ?_⟩
    cases ext <;> simp [heartbeatLoopRun]
  | cons r rs ih =>
    cases r <;>
      exact ⟨by simp [heartbeatLoopRun, heartbeatIter, ih.1],
             by simp [heartbeatLoopRun, heartbeatIter, ih.2]⟩

/-! ## ZMQ reconnect backoff (claim C4) -/

theorem reconnect_fail_ok (c : ZMQClient) (now : Nat) :
    (reconnect c false now).ok = false := by
  unfold reconnect zmqConnect
  split
  · rfl
  · simp

theorem chainFailedReconnects_total (now : Nat) :
    ∀ (n : Nat) (c : ZMQClient), c.max_reconnect_attempts = 5 →
      c.reconnect_attempts ≤ 5 →
      (chainFailedReconnects c now n).2 = min n (5 - c.reconnect_attempts) := by
  intro n
  induction n with
  | zero => intro c h5 hle; simp [chainFailedReconnects]
  | succ n ih =>
    intro c h5 hle
    by_cases hb : c.max_reconnect_attempts ≤ c.reconnect_attempts
    · have hr : reconnect c false now = ⟨false, c, Option.none, false⟩ := by
        unfold reconnect; rw [if_pos hb]
      have hatt : c.reconnect_attempts = 5 := by omega
      simp [chainFailedReconnects, hr, ih c h5 hle, hatt]
    · have hlt : c.reconnect_attempts < 5 := by omega
      have hr : reconnect c false now =
          ⟨false,
           { c with reconnect_attempts := c.reconnect_attempts + 1, connected := false },
           some (min (2 ^ (c.reconnect_attempts + 1)) 30), true⟩ := by
        unfold reconnect zmqConnect
        rw [if_neg hb]
        simp
      have hrec := ih
        { c with reconnect_attempts := c.reconnect_attempts + 1, connected := false }
        h5 (by simp; omega)
      simp only [chainFailedReconnects, hr] at hrec ⊢
      rw [hrec]
      simp only [if_true]
      omega

/-- Claim C4: with the 5-attempt budget, a `reconnect` under budget whose
`_connect` fails makes the attempt and sleeps `min(2^attempt, 30)` seconds
before returning failure; once the budget is consumed no further attempt is
made; a chain of failing reconnects makes exactly `min(n, 5 - used)` (hence
at most 5) connect attempts; and a `send` on an unconnected client whose
connect attempts all fail raises the fatal ENOTCONN "not connected"
failure. -/
theorem C4_reconnect_backoff (c : ZMQClient) (now : Nat) :
    (c.max_reconnect_attempts = 5 →
      (c.reconnect_attempts < 5 →
        (reconnect c false now).attempted = true ∧
        (reconnect c false now).ok = false ∧
        (reconnect c false now).waited = some (min (2 ^ (c.reconnect_attempts + 1)) 30)) ∧
      (5 ≤ c.reconnect_attempts →
        (reconnect c false now).attempted = false ∧
        (reconnect c false now).ok = false) ∧
      (∀ n, c.reconnect_attempts ≤ 5 →
        (chainFailedReconnects c now n).2 = min n (5 - c.reconnect_attempts) ∧
        (chainFailedReconnects c now n).2 ≤ 5)) ∧
    (c.connected = false → ∀ sendOk,
      (zmqSend c now false false false sendOk).result = SendResult.notConnRaised) := by
  constructor
  · intro h5
    refine ⟨fun hlt => ?_, fun hge => ?_, fun n hle => ?_⟩
    · unfold reconnect zmqConnect
      rw [if_neg (by omega)]
      simp
    · unfold reconnect
      rw [if_pos (by omega)]
      exact ⟨rfl, rfl⟩
    · have := chainFailedReconnects_total now n c h5 hle
      exact ⟨this, by rw [this]; omega⟩
  · intro hconn sendOk
    simp [zmqSend, ensure_connection, zmqConnect, hconn, reconnect_fail_ok]

/-- Witness for C4 at a concrete fresh client: first failed attempt sleeps
`min(2,30) = 2` seconds, an exhausted client makes no attempt, a chain of 7
failures stops at 5 attempts, and the failing send raises ENOTCONN. -/
theorem C4_reconnect_backoff_witness :
    ((reconnect wZmq false 0).attempted = true ∧ (reconnect wZmq false 0).ok = false ∧
      (reconnect wZmq false 0).waited = some 2) ∧
    ((reconnect { wZmq with reconnect_attempts := 5 } false 0).attempted = false ∧
      (reconnect { wZmq with reconnect_attempts := 5 } false 0).ok = false) ∧
    ((chainFailedReconnects wZmq 0 7).2 = 5 ∧ (chainFailedReconnects wZmq 0 7).2 ≤ 5) ∧
    (zmqSend wZmq 0 false false false true).result = SendResult.notConnRaised :=
  ⟨((C4_reconnect_backoff wZmq 0).1 rfl).1 (by decide),
   ((C4_reconnect_backoff { wZmq with reconnect_attempts := 5 } 0).1 rfl).2.1
      (by decide),
   ((C4_reconnect_backoff wZmq 0).1 rfl).2.2 7 (by decide),
   (C4_reconnect_backoff wZmq 0).2 rfl true⟩

/-! ## Unregister (claim C7)

The claim states that `unregister` awaits the cancelled heartbeat task to
completion before removing the subscriber record.  The handler's effect trace
refutes this: it requests cancellation and deletes the registry entry with no
intervening (or any) await. -/

theorem alookup_filter_ne {α : Type} (l : List (String × α)) (nm : String) :
    alookup (l.filter (fun p => p.1 != nm)) nm = Option.none := by
  induction l with
  | nil => rfl
  | cons hd tl ih =>
    obtain ⟨k, v⟩ := hd
    by_cases hk : k = nm
    · simp [hk, ih]
    · simp [List.filter_cons, hk, alookup, ih]

theorem notin_keys_filter {α : Type} (l : List (String × α)) (nm : String) :
    nm ∉ (l.filter (fun p => p.1 != nm)).map Prod.fst := by
  intro hmem
  obtain ⟨p, hp, he⟩ := List.mem_map.mp hmem
  have hkeep := List.of_mem_filter hp
  rw [he] at hkeep
  simp at hkeep

theorem unregister_effects (s : ApiState) (client_name : String)
    (hreg : (alookup s.registered_clients client_name).isSome) :
    (unregister s client_name).2.2 =
      (match alookup s.heartbeat_tasks client_name with
        | some t => if ¬ t.done then [UnregEffect.cancelTask client_name] else []
        | Option.none => []) ++ [UnregEffect.removeClient client_name] ∧
    (unregister s client_name).1.registered_clients =
      s.registered_clients.filter (fun p => p.1 != client_name) ∧
    (unregister s client_name).2.1 = ⟨[], ⟨"", "Success"⟩⟩ := by
  unfold unregister
  rw [if_pos hreg]
  exact ⟨rfl, rfl, rfl⟩

/-- Counterexample to claim C7 as stated: at a concrete state holding one
registered client with a live heartbeat task, the unregister handler's effect
trace is exactly cancel-then-remove — it contains no awaiting of the
cancelled task before (or after) the subscriber record is removed. -/
theorem C7_unregister_counterexample :
    (unregister c7State "clientA").2.2 =
      [UnregEffect.cancelTask "clientA", UnregEffect.removeClient "clientA"] ∧
    UnregEffect.awaitTask "clientA" ∉ (unregister c7State "clientA").2.2 := by
  decide

/-- Claim C7 (amended): unregistering a registered client requests
cancellation of its non-finished heartbeat task and removes the subscriber
record before returning Success, but does not await the cancellation; after
the call the client is absent from the subscriber registry, so notification
fan-out no longer targets it. -/
theorem C7_unregister_amended (s : ApiState) (client_name : String)
    (cd : CallBackRegistrationData)
    (hreg : alookup s.registered_clients client_name = some cd) :
    alookup (unregister s client_name).1.registered_clients client_name =
      Option.none ∧
    client_name ∉ notifyRecipients (unregister s client_name).1 ∧
    (unregister s client_name).2.1 = ⟨[], ⟨"", "Success"⟩⟩ ∧
    (∀ nm, UnregEffect.awaitTask nm ∉ (unregister s client_name).2.2) ∧
    (∀ t, alookup s.heartbeat_tasks client_name = some t → t.done = false →
      (unregister s client_name).2.2 =
        [UnregEffect.cancelTask client_name, UnregEffect.removeClient client_name]) := by
  have hsome : (alookup s.registered_clients client_name).isSome := by rw [hreg]; rfl
  obtain ⟨heff, hclients, hresp⟩ := unregister_effects s client_name hsome
  refine ⟨?_, ?_, hresp, fun nm => ?_, fun t ht hdone => ?_⟩
  · rw [hclients]
    exact alookup_filter_ne s.registered_clients client_name
  · rw [notifyRecipients, hclients]
    exact notin_keys_filter s.registered_clients client_name
  · rw [heff]
    cases htask : alookup s.heartbeat_tasks client_name with
    | none => simp
    | some t =>
      by_cases ht : t.done
      · simp [ht]
      · simp [ht]
  · rw [heff, ht]
    simp [hdone]

/-- Witness for the amended C7 at the concrete state: the live task is
cancelled, the record removed, no await appears in the trace. -/
theorem C7_unregister_amended_witness :
    alookup (unregister c7State "clientA").1.registered_clients "clientA" =
      Option.none ∧
    "clientA" ∉ notifyRecipients (unregister c7State "clientA").1 ∧
    (unregister c7State "clientA").2.1 = ⟨[], ⟨"", "Success"⟩⟩ ∧
    (∀ nm, UnregEffect.awaitTask nm ∉ (unregister c7State "clientA").2.2) ∧
    (unregister c7State "clientA").2.2 =
      [UnregEffect.cancelTask "clientA", UnregEffect.removeClient "clientA"] :=
  have h := C7_unregister_amended c7State "clientA" c7Client (by decide)
  ⟨h.1, h.2.1, h.2.2.1, h.2.2.2.1, h.2.2.2.2 c7Task (by decide) (by decide)⟩

end WurApi
